import Mathlib

/-!
Verification of the NF normalizing-flow repository.

The development shallowly embeds the three source files:

* `tools.py` — the checkerboard and channel coupling masks, modelled as
  shape-carrying rational-valued tensors (float32 is exact on the values
  {0, 1} that occur, so ℚ is a faithful carrier).
* `nn_layers.py` — the gated convolutional and fully-connected networks,
  modelled over ℝ with explicit parameter records (convolution, ELU,
  sigmoid and layer normalisation written out index-wise).
* `network.py` — the flow recipe builders, modelled as `Except`-valued
  constructions over layer descriptors.  Python raises exceptions at
  construction time; the model returns `.error` with the corresponding
  Python exception kind.  In particular `GatedConvNet.__init__` accepts
  only the keywords c_in, c_hidden, c_out and num_layers, so a call that
  passes the keyword partial_conv raises TypeError, which the model
  reproduces by checking the passed keyword list against the accepted one.

The classes imported by `network.py` from `flow_template.py`,
`flow_dequantization.py` and `flow_models.py` are not part of the three
source files; their constructors never inspect their arguments at
construction time, and the recipe builders only assemble them, so they are
modelled as always-succeeding descriptor constructors recording their
arguments.
-/

namespace NF

/-! ### tools.py — coupling masks -/

/-- A mask tensor: the `view` shape recorded by `tools.py` and the entry at
index `(b, ch, i, j)`.  Mask values are 0.0 or 1.0 in float32, which ℚ
represents exactly. -/
structure ImgMask where
  shape : List ℕ
  entry : ℕ → ℕ → ℕ → ℕ → ℚ

/-- tools.create_checkerboard_mask: `hh, ww = meshgrid(arange h, arange w)`
with indexing ij gives `hh i j = i` and `ww i j = j`; `mask = fmod (hh + ww) 2`
on nonnegative int32 entries agrees with `%`; the float32 cast is exact on
{0, 1} and is modelled by the cast into ℚ; `view(1, 1, h, w)` records the
shape; `if invert: mask = 1 - mask`. -/
def create_checkerboard_mask (h w : ℕ) (invert : Bool) : ImgMask :=
  let mask : ImgMask :=
    { shape := [1, 1, h, w], entry := fun _ _ i j => (((i + j) % 2 : ℕ) : ℚ) }
  if invert then { mask with entry := fun b ch i j => 1 - mask.entry b ch i j }
  else mask

/-- tools.create_channel_mask: `cat(ones(c_in // 2), zeros(c_in - c_in // 2))`
is 1 on indices below `c_in / 2` (integer floor division) and 0 on the rest;
`view(1, c_in, 1, 1)` records the shape; `if invert: mask = 1 - mask`. -/
def create_channel_mask (c_in : ℕ) (invert : Bool) : ImgMask :=
  let mask : ImgMask :=
    { shape := [1, c_in, 1, 1],
      entry := fun _ ch _ _ => if ch < c_in / 2 then 1 else 0 }
  if invert then { mask with entry := fun b ch i j => 1 - mask.entry b ch i j }
  else mask

/-! ### nn_layers.py — gated networks over real tensors

Float32 arithmetic is modelled over ℝ; the shape bookkeeping of each torch
operation is carried alongside a total entry function. -/

/-- A `[batch, channel, height, width]` tensor. -/
structure Tensor where
  batch : ℕ
  channels : ℕ
  height : ℕ
  width : ℕ
  data : ℕ → ℕ → ℕ → ℕ → ℝ

/-- The `[b, c, h, w]` shape of a tensor. -/
def Tensor.shape (t : Tensor) : List ℕ := [t.batch, t.channels, t.height, t.width]

/-- F.elu with the default alpha = 1. -/
noncomputable def elu (x : ℝ) : ℝ := if 0 ≤ x then x else Real.exp x - 1

/-- torch.sigmoid. -/
noncomputable def sigmoid (x : ℝ) : ℝ := 1 / (1 + Real.exp (-x))

/-- Parameters of an nn.Conv2d: weight indexed `[c_out][c_in][ki][kj]` and
bias indexed `[c_out]`. -/
structure ConvParams where
  weight : ℕ → ℕ → ℕ → ℕ → ℝ
  bias : ℕ → ℝ

/-- Zero-padded read of an input feature map at a possibly out-of-range
spatial position. -/
noncomputable def padRead (x : Tensor) (b ch : ℕ) (i j : ℤ) : ℝ :=
  if 0 ≤ i ∧ i < (x.height : ℤ) ∧ 0 ≤ j ∧ j < (x.width : ℤ) then
    x.data b ch i.toNat j.toNat
  else 0

/-- nn.Conv2d with square kernel `k`, stride 1 and symmetric zero padding
`pad`: `out[b][co][i][j] = bias[co] + Σ_ci Σ_di Σ_dj weight[co][ci][di][dj] *
x[b][ci][i + di - pad][j + dj - pad]`, spatial size `n + 2 pad - k + 1`. -/
noncomputable def conv2d (c_in c_out k pad : ℕ) (p : ConvParams) (x : Tensor) : Tensor :=
  { batch := x.batch
    channels := c_out
    height := x.height + 2 * pad - k + 1
    width := x.width + 2 * pad - k + 1
    data := fun b co i j =>
      p.bias co + ∑ ci ∈ Finset.range c_in, ∑ di ∈ Finset.range k,
        ∑ dj ∈ Finset.range k,
          p.weight co ci di dj *
            padRead x b ci ((i : ℤ) + (di : ℤ) - (pad : ℤ))
              ((j : ℤ) + (dj : ℤ) - (pad : ℤ)) }

/-- ConcatELU.forward: `cat([elu x, elu (-x)], dim=1)`; doubles the channel
count. -/
noncomputable def concatELU (x : Tensor) : Tensor :=
  { x with
    channels := 2 * x.channels
    data := fun b ch i j =>
      if ch < x.channels then elu (x.data b ch i j)
      else elu (-(x.data b (ch - x.channels) i j)) }

/-- Elementwise-affine parameters of an nn.LayerNorm. -/
structure LayerNormParams where
  gamma : ℕ → ℝ
  beta : ℕ → ℝ

/-- The default nn.LayerNorm eps = 1e-5. -/
noncomputable def layerNormEps : ℝ := 1 / 100000

/-- LayerNormChannels.forward: `permute(0, 2, 3, 1)`, `nn.LayerNorm(c_in)`
over the (now last) channel axis — biased mean and variance across the
`c_in` channels at each `(b, i, j)` position — then `permute(0, 3, 1, 2)`
back. -/
noncomputable def layerNormChannels (c_in : ℕ) (p : LayerNormParams) (x : Tensor) : Tensor :=
  { x with
    data := fun b ch i j =>
      let mean := (∑ k ∈ Finset.range c_in, x.data b k i j) / (c_in : ℝ)
      let var := (∑ k ∈ Finset.range c_in, (x.data b k i j - mean) ^ 2) / (c_in : ℝ)
      p.gamma ch * ((x.data b ch i j - mean) / Real.sqrt (var + layerNormEps)) + p.beta ch }

/-- Parameters of a GatedConv block: the two convolutions of its `net`. -/
structure GatedConvParams where
  conv1 : ConvParams
  conv2 : ConvParams

/-- GatedConv.forward: `net = Conv2d(c_in, c_hidden, 3, padding 1); ConcatELU;
Conv2d(2 c_hidden, 2 c_in, 1)`; `val, gate = out.chunk(2, dim=1)`;
`x + val * sigmoid gate`. -/
noncomputable def gatedConv (c_in c_hidden : ℕ) (p : GatedConvParams) (x : Tensor) : Tensor :=
  let out := conv2d (2 * c_hidden) (2 * c_in) 1 0 p.conv2
    (concatELU (conv2d c_in c_hidden 3 1 p.conv1 x))
  { x with data := fun b ch i j =>
      x.data b ch i j + out.data b ch i j * sigmoid (out.data b (ch + c_in) i j) }

/-- Parameters of one `GatedConv(c_hidden, c_hidden)` plus
`LayerNormChannels(c_hidden)` pair of GatedConvNet. -/
structure GatedBlockParams where
  gconv : GatedConvParams
  lnorm : LayerNormParams

/-- One `GatedConv(c_hidden, c_hidden)` followed by
`LayerNormChannels(c_hidden)`. -/
noncomputable def gatedConvBlock (c_hidden : ℕ) (p : GatedBlockParams) (x : Tensor) : Tensor :=
  layerNormChannels c_hidden p.lnorm (gatedConv c_hidden c_hidden p.gconv x)

/-- The parameters a fresh GatedConvNet draws from PyTorch's default
initialisers, left abstract (the zeroing of the last layer is applied by
`GatedConvNet.init` on top of them, as in the source). -/
structure GatedConvNetRand where
  conv0 : ConvParams
  block : ℕ → GatedBlockParams
  finalConv : ConvParams

/-- Convolution parameters that are exactly zero. -/
noncomputable def zeroConvParams : ConvParams :=
  ⟨fun _ _ _ _ => 0, fun _ => 0⟩

/-- The state of a constructed GatedConvNet. -/
structure GatedConvNetM where
  c_in : ℕ
  c_hidden : ℕ
  c_out : ℕ
  conv0 : ConvParams
  blocks : List GatedBlockParams
  finalConv : ConvParams

/-- GatedConvNet.__init__(c_in, c_hidden=32, c_out=-1, num_layers=3):
`c_out = c_out if c_out > 0 else 2 * c_in`; the nn.Sequential is
`Conv2d(c_in, c_hidden, 3, padding 1)`, `num_layers` gated blocks,
`ConcatELU`, `Conv2d(2 c_hidden, c_out, 3, padding 1)`; then
`self.nn[-1].weight.data.zero_()` and `self.nn[-1].bias.data.zero_()`
overwrite the final convolution with exact zeros. -/
noncomputable def GatedConvNet.init (c_in c_hidden : ℕ) (c_out : ℤ) (num_layers : ℕ)
    (r : GatedConvNetRand) : GatedConvNetM :=
  { c_in := c_in
    c_hidden := c_hidden
    c_out := if 0 < c_out then c_out.toNat else 2 * c_in
    conv0 := r.conv0
    blocks := (List.range num_layers).map r.block
    finalConv := zeroConvParams }

/-- GatedConvNet.forward: `self.nn(x)` with the sequential layers applied in
order. -/
noncomputable def GatedConvNet.forward (m : GatedConvNetM) (x : Tensor) : Tensor :=
  conv2d (2 * m.c_hidden) m.c_out 3 1 m.finalConv
    (concatELU (m.blocks.foldl (fun t p => gatedConvBlock m.c_hidden p t)
      (conv2d m.c_in m.c_hidden 3 1 m.conv0 x)))

/-- A `[batch, features]` tensor (the flattened view used by GatedLinearNet). -/
structure Tensor2 where
  batch : ℕ
  features : ℕ
  data : ℕ → ℕ → ℝ

/-- Parameters of an nn.Linear: weight indexed `[out][in]` and bias `[out]`. -/
structure LinParams where
  weight : ℕ → ℕ → ℝ
  bias : ℕ → ℝ

/-- nn.Linear(in_features, out_features):
`out[b][f] = bias[f] + Σ_g weight[f][g] * x[b][g]`. -/
noncomputable def linearLayer (in_features out_features : ℕ) (p : LinParams)
    (x : Tensor2) : Tensor2 :=
  { batch := x.batch
    features := out_features
    data := fun b f =>
      p.bias f + ∑ g ∈ Finset.range in_features, p.weight f g * x.data b g }

/-- ConcatELU on a flattened tensor: `cat([elu x, elu (-x)], dim=1)`. -/
noncomputable def concatELU2 (x : Tensor2) : Tensor2 :=
  { batch := x.batch
    features := 2 * x.features
    data := fun b f =>
      if f < x.features then elu (x.data b f) else elu (-(x.data b (f - x.features))) }

/-- nn.LayerNorm(n) on a flattened tensor: biased mean and variance over the
feature axis, eps = 1e-5, elementwise affine. -/
noncomputable def layerNorm1 (n : ℕ) (p : LayerNormParams) (x : Tensor2) : Tensor2 :=
  { x with data := fun b f =>
      let mean := (∑ k ∈ Finset.range n, x.data b k) / (n : ℝ)
      let var := (∑ k ∈ Finset.range n, (x.data b k - mean) ^ 2) / (n : ℝ)
      p.gamma f * ((x.data b f - mean) / Real.sqrt (var + layerNormEps)) + p.beta f }

/-- Parameters of a GatedLinear block: the two linear layers of its `net`. -/
structure GatedLinParams where
  lin1 : LinParams
  lin2 : LinParams

/-- GatedLinear.forward: `net = Linear(in, in); ConcatELU; Linear(2 in, 2 in)`;
`val, gate = out.chunk(2, dim=1)`; `x + val * sigmoid gate`. -/
noncomputable def gatedLinear (in_features : ℕ) (p : GatedLinParams) (x : Tensor2) : Tensor2 :=
  let out := linearLayer (2 * in_features) (2 * in_features) p.lin2
    (concatELU2 (linearLayer in_features in_features p.lin1 x))
  { x with data := fun b f =>
      x.data b f + out.data b f * sigmoid (out.data b (f + in_features)) }

/-- Parameters of one `GatedLinear(in_features)` plus
`nn.LayerNorm(in_features)` pair of GatedLinearNet. -/
structure GatedLinBlockParams where
  glin : GatedLinParams
  lnorm : LayerNormParams

/-- One `GatedLinear(in_features)` followed by `nn.LayerNorm(in_features)`. -/
noncomputable def gatedLinBlock (in_features : ℕ) (p : GatedLinBlockParams)
    (x : Tensor2) : Tensor2 :=
  layerNorm1 in_features p.lnorm (gatedLinear in_features p.glin x)

/-- The parameters a fresh GatedLinearNet draws from PyTorch's default
initialisers, left abstract. -/
structure GatedLinearNetRand where
  lin0 : LinParams
  block : ℕ → GatedLinBlockParams
  finalLin : LinParams

/-- Linear parameters that are exactly zero. -/
noncomputable def zeroLinParams : LinParams := ⟨fun _ _ => 0, fun _ => 0⟩

/-- The state of a constructed GatedLinearNet. -/
structure GatedLinearNetM where
  in_features : ℕ
  lin0 : LinParams
  blocks : List GatedLinBlockParams
  finalLin : LinParams

/-- GatedLinearNet.__init__(in_features, num_layers=3): the nn.Sequential is
`Linear(in, in)`, `num_layers` gated blocks, `ConcatELU`,
`Linear(2 in, 2 in)`; then `self.nn[-1].weight.data.zero_()` and
`self.nn[-1].bias.data.zero_()` overwrite the final linear layer with exact
zeros. -/
noncomputable def GatedLinearNet.init (in_features num_layers : ℕ)
    (r : GatedLinearNetRand) : GatedLinearNetM :=
  { in_features := in_features
    lin0 := r.lin0
    blocks := (List.range num_layers).map r.block
    finalLin := zeroLinParams }

/-- GatedLinearNet.forward: `b, c, h, w = x.shape`;
`out = torch.flatten(x, start_dim=1)` (feature index
`ch * (h * w) + i * w + j`); `out = self.nn(out)`;
`out = torch.reshape(out, [b, 2 * c, h, w])`. -/
noncomputable def GatedLinearNet.forward (m : GatedLinearNetM) (x : Tensor) : Tensor :=
  let flat : Tensor2 :=
    { batch := x.batch
      features := x.channels * x.height * x.width
      data := fun b f =>
        x.data b (f / (x.height * x.width)) (f % (x.height * x.width) / x.width)
          (f % x.width) }
  let out := linearLayer (2 * m.in_features) (2 * m.in_features) m.finalLin
    (concatELU2 (m.blocks.foldl (fun t p => gatedLinBlock m.in_features p t)
      (linearLayer m.in_features m.in_features m.lin0 flat)))
  { batch := x.batch
    channels := 2 * x.channels
    height := x.height
    width := x.width
    data := fun b ch i j => out.data b (ch * (x.height * x.width) + i * x.width + j) }

/-- A concrete [1, 1, 1, 1] all-zero tensor, used as a concrete input. -/
noncomputable def tensor0 : Tensor := ⟨1, 1, 1, 1, fun _ _ _ _ => 0⟩

/-- Concrete all-zero LayerNorm parameters, used as a concrete input. -/
noncomputable def zeroLNParams : LayerNormParams := ⟨fun _ => 0, fun _ => 0⟩

/-- A concrete draw of GatedConvNet initial parameters. -/
noncomputable def gatedConvNetRand0 : GatedConvNetRand :=
  ⟨zeroConvParams, fun _ => ⟨⟨zeroConvParams, zeroConvParams⟩, zeroLNParams⟩, zeroConvParams⟩

/-- A concrete draw of GatedLinearNet initial parameters. -/
noncomputable def gatedLinearNetRand0 : GatedLinearNetRand :=
  ⟨zeroLinParams, fun _ => ⟨⟨zeroLinParams, zeroLinParams⟩, zeroLNParams⟩, zeroLinParams⟩

/-! ### network.py — recipe builders over layer descriptors -/

/-- The Python exceptions that `network.py` can raise at construction time. -/
inductive PyError where
  | nameError (msg : String)
  | typeError (msg : String)
deriving DecidableEq

/-- Descriptor of a constructed transform network (`nn_layers.py` class plus
the constructor arguments that were accepted). -/
inductive NetDesc where
  | gatedConvNet (c_in c_hidden : ℕ) (c_out : ℤ) (num_layers : ℕ)
  | gatedLinearNet (in_features num_layers : ℕ)
deriving DecidableEq

/-- Descriptor of a mask argument (`tools.py` constructor and arguments). -/
inductive MaskDesc where
  | checkerboard (h w : ℕ) (invert : Bool)
  | channel (c_in : ℕ) (invert : Bool)
deriving DecidableEq

/-- Descriptor of a CouplingLayer (class from `flow_models.py`, not among the
three source files; its constructor records its arguments). -/
structure CouplingDesc where
  network : NetDesc
  mask : MaskDesc
  c_in : ℕ
deriving DecidableEq

/-- Descriptor of one flow transform as assembled by `network.py`. -/
inductive LayerDesc where
  | dequantization
  | variationalDequantization (var_flows : List CouplingDesc)
  | couplingLayer (layer : CouplingDesc)
  | squeezeFlow
  | splitFlow
deriving DecidableEq

/-- Descriptor of the composed `ImageFlow` (class from `flow_template.py`,
not among the three source files; its constructor records the layer list). -/
structure FlowModel where
  layers : List LayerDesc
deriving DecidableEq

/-- The configuration fields that `network.py` reads. -/
structure Config where
  size : ℕ
  c : ℕ
  model_name : String
deriving DecidableEq

/-- The keyword parameters of `GatedConvNet.__init__` in `nn_layers.py`
(signature `def __init__(self, c_in, c_hidden=32, c_out=-1, num_layers=3)`). -/
def gatedConvNetKwargs : List String := ["c_in", "c_hidden", "c_out", "num_layers"]

/-- The keyword parameters of `GatedLinearNet.__init__` in `nn_layers.py`
(signature `def __init__(self, in_features, num_layers=3)`). -/
def gatedLinearNetKwargs : List String := ["in_features", "num_layers"]

/-- A call `GatedConvNet(...)` with the given keyword names: Python raises
TypeError on a keyword the signature does not accept, otherwise the
instance is constructed. -/
def callGatedConvNet (kwargs : List String) (c_in c_hidden : ℕ) (c_out : ℤ)
    (num_layers : ℕ) : Except PyError NetDesc :=
  match kwargs.find? (fun k => !(gatedConvNetKwargs.contains k)) with
  | some k => .error (.typeError ("__init__() got an unexpected keyword argument " ++ k))
  | none => .ok (.gatedConvNet c_in c_hidden c_out num_layers)

/-- A call `GatedLinearNet(...)` with the given keyword names. -/
def callGatedLinearNet (kwargs : List String) (in_features num_layers : ℕ) :
    Except PyError NetDesc :=
  match kwargs.find? (fun k => !(gatedLinearNetKwargs.contains k)) with
  | some k => .error (.typeError ("__init__() got an unexpected keyword argument " ++ k))
  | none => .ok (.gatedLinearNet in_features num_layers)

/-- network.get_flow_layers: the dequantization part (`VariationalDequantization`
over four checkerboard couplings when `vardeq`, else `Dequantization`) followed
by `num_layers` couplings over `GatedConvNet` (or `GatedLinearNet` when
`linear`).  Every `GatedConvNet(...)` call here passes the keyword
partial_conv, faithful to lines 14 and 24 of the source. -/
def get_flow_layers (size c : ℕ) (vardeq : Bool) (num_layers : ℕ)
    (linear : Bool) (partial_conv : Bool) : Except PyError (List LayerDesc) := do
  let _ := partial_conv
  let dequantLayers ←
    if vardeq then do
      let vardeq_layers ← (List.range 4).mapM (fun i => do
        let net ← callGatedConvNet ["c_in", "c_out", "c_hidden", "partial_conv"]
          (2 * c) 16 (2 * c) 3
        pure (⟨net, .checkerboard size size (i % 2 == 1), 1 * c⟩ : CouplingDesc))
      pure [LayerDesc.variationalDequantization vardeq_layers]
    else
      pure [LayerDesc.dequantization]
  let mainLayers ← (List.range num_layers).mapM (fun i => do
    if !linear then
      let net ← callGatedConvNet ["c_in", "c_hidden", "partial_conv"] (1 * c) 32 (-1) 3
      pure (LayerDesc.couplingLayer ⟨net, .checkerboard size size (i % 2 == 1), 1 * c⟩)
    else
      let num_features := c * size * size
      let net ← callGatedLinearNet ["in_features"] num_features 3
      pure (LayerDesc.couplingLayer ⟨net, .checkerboard size size (i % 2 == 1), 1 * c⟩))
  pure (dequantLayers ++ mainLayers)

/-- network.create_simple_flow: Dequantization + 8 CouplingLayer(GatedConvNet);
`sample_shape_factor = tensor([1, 1, 1, 1])`. -/
def create_simple_flow (config : Config) : Except PyError (FlowModel × List ℚ) := do
  let flow_layers ← get_flow_layers config.size config.c false 8 false false
  pure (⟨flow_layers⟩, ([1, 1, 1, 1] : List ℚ))

/-- network.create_vardeq_flow. -/
def create_vardeq_flow (config : Config) : Except PyError (FlowModel × List ℚ) := do
  let flow_layers ← get_flow_layers config.size config.c true 8 false false
  pure (⟨flow_layers⟩, ([1, 1, 1, 1] : List ℚ))

/-- network.create_long_flow. -/
def create_long_flow (config : Config) : Except PyError (FlowModel × List ℚ) := do
  let flow_layers ← get_flow_layers config.size config.c true 15 false false
  pure (⟨flow_layers⟩, ([1, 1, 1, 1] : List ℚ))

/-- network.create_linear_flow. -/
def create_linear_flow (config : Config) : Except PyError (FlowModel × List ℚ) := do
  let flow_layers ← get_flow_layers config.size config.c true 8 true false
  pure (⟨flow_layers⟩, ([1, 1, 1, 1] : List ℚ))

/-- network.create_partial_conv_flow. -/
def create_partial_conv_flow (config : Config) : Except PyError (FlowModel × List ℚ) := do
  let flow_layers ← get_flow_layers config.size config.c true 8 false true
  pure (⟨flow_layers⟩, ([1, 1, 1, 1] : List ℚ))

/-- network.create_multiscale_flow line 92:
`squeeze_twice = True if (config.size % 4 == 0) and (config.size >= 20) else False`. -/
def multiscale_squeeze_twice (size : ℕ) : Bool :=
  (size % 4 == 0) && (decide (20 ≤ size))

/-- network.create_multiscale_flow: variational dequantization, two
checkerboard couplings, squeeze, two channel couplings, split, then (when
`squeeze_twice`) another squeeze and four channel couplings with factor
`[1, 8, 0.25, 0.25]`, else four channel couplings with factor
`[1, 2, 0.5, 0.5]` (0.25 and 0.5 are exact in float32, written as ℚ).
None of its `GatedConvNet(...)` calls passes the keyword partial_conv. -/
def create_multiscale_flow (config : Config) : Except PyError (FlowModel × List ℚ) := do
  let vardeq_layers ← (List.range 4).mapM (fun i => do
    let net ← callGatedConvNet ["c_in", "c_out", "c_hidden"]
      (2 * config.c) 16 (2 * config.c) 3
    pure (⟨net, .checkerboard config.size config.size (i % 2 == 1),
      1 * config.c⟩ : CouplingDesc))
  let part1 : List LayerDesc := [.variationalDequantization vardeq_layers]
  let part2 ← (List.range 2).mapM (fun i => do
    let net ← callGatedConvNet ["c_in", "c_hidden"] (1 * config.c) 32 (-1) 3
    pure (LayerDesc.couplingLayer
      ⟨net, .checkerboard config.size config.size (i % 2 == 1), 1 * config.c⟩))
  let part3 : List LayerDesc := [.squeezeFlow]
  let part4 ← (List.range 2).mapM (fun i => do
    let net ← callGatedConvNet ["c_in", "c_hidden"] (4 * config.c) 48 (-1) 3
    pure (LayerDesc.couplingLayer
      ⟨net, .channel (4 * config.c) (i % 2 == 1), 4 * config.c⟩))
  let part5 : List LayerDesc := [.splitFlow]
  if multiscale_squeeze_twice config.size then
    let part6 ← (List.range 4).mapM (fun i => do
      let net ← callGatedConvNet ["c_in", "c_hidden"] (8 * config.c) 64 (-1) 3
      pure (LayerDesc.couplingLayer
        ⟨net, .channel (8 * config.c) (i % 2 == 1), 8 * config.c⟩))
    pure (⟨part1 ++ part2 ++ part3 ++ part4 ++ part5 ++ [.squeezeFlow] ++ part6⟩,
      ([1, 8, 1/4, 1/4] : List ℚ))
  else
    let part6 ← (List.range 4).mapM (fun i => do
      let net ← callGatedConvNet ["c_in", "c_hidden"] (2 * config.c) 64 (-1) 3
      pure (LayerDesc.couplingLayer
        ⟨net, .channel (2 * config.c) (i % 2 == 1), 2 * config.c⟩))
    pure (⟨part1 ++ part2 ++ part3 ++ part4 ++ part5 ++ part6⟩,
      ([1, 2, 1/2, 1/2] : List ℚ))

/-- The recipe names for which `eval("create_" + model_name + "_flow")`
resolves to a defined builder in `network.py`. -/
def knownModelNames : List String :=
  ["simple", "vardeq", "long", "linear", "partial_conv", "multiscale"]

/-- The `eval`-lookup of `create_{model_name}_flow` among the module-level
definitions of `network.py`. -/
def lookupCreateFlowFunc (m : String) :
    Option (Config → Except PyError (FlowModel × List ℚ)) :=
  if m = "simple" then some create_simple_flow
  else if m = "vardeq" then some create_vardeq_flow
  else if m = "long" then some create_long_flow
  else if m = "linear" then some create_linear_flow
  else if m = "partial_conv" then some create_partial_conv_flow
  else if m = "multiscale" then some create_multiscale_flow
  else none

/-- network.create_flow: `eval` resolves the builder name before the
try-block, so an unknown name raises NameError (the interpreter message
names the missing symbol `create_{model_name}_flow`) at the `eval` itself
and no builder is ever called; the `except NameError` branch only wraps
the builder call and would re-raise with the message Unknown model. -/
def create_flow (config : Config) : Except PyError (FlowModel × List ℚ) :=
  match lookupCreateFlowFunc config.model_name with
  | none =>
    .error (.nameError ("name create_" ++ config.model_name ++ "_flow is not defined"))
  | some f =>
    match f config with
    | .error (.nameError _) => .error (.nameError ("Unknown model: " ++ config.model_name))
    | .error e => .error e
    | .ok res => .ok res

/-- The TypeError message produced when a `GatedConvNet(...)` call passes the
keyword partial_conv. -/
def unexpectedKwargMsg : String :=
  "__init__() got an unexpected keyword argument " ++ "partial_conv"

/-! ### Helper lemmas -/

/-- A convolution whose weight and bias are exactly zero outputs zero at every
index, whatever its input. -/
theorem conv2d_zero_data (c_in c_out k pad : ℕ) (x : Tensor) (b co i j : ℕ) :
    (conv2d c_in c_out k pad zeroConvParams x).data b co i j = 0 := by
  simp [conv2d, zeroConvParams]

/-- A linear layer whose weight and bias are exactly zero outputs zero at
every index, whatever its input. -/
theorem linearLayer_zero_data (in_f out_f : ℕ) (x : Tensor2) (b f : ℕ) :
    (linearLayer in_f out_f zeroLinParams x).data b f = 0 := by
  simp [linearLayer, zeroLinParams]

/-- Gated blocks keep the batch field of their input. -/
theorem foldl_gatedConvBlock_batch (c_hidden : ℕ) (l : List GatedBlockParams) (t : Tensor) :
    (l.foldl (fun a p => gatedConvBlock c_hidden p a) t).batch = t.batch := by
  induction l generalizing t with
  | nil => rfl
  | cons p l ih => exact ih (gatedConvBlock c_hidden p t)

/-- Gated blocks keep the channels field of their input. -/
theorem foldl_gatedConvBlock_channels (c_hidden : ℕ) (l : List GatedBlockParams) (t : Tensor) :
    (l.foldl (fun a p => gatedConvBlock c_hidden p a) t).channels = t.channels := by
  induction l generalizing t with
  | nil => rfl
  | cons p l ih => exact ih (gatedConvBlock c_hidden p t)

/-- Gated blocks keep the height field of their input. -/
theorem foldl_gatedConvBlock_height (c_hidden : ℕ) (l : List GatedBlockParams) (t : Tensor) :
    (l.foldl (fun a p => gatedConvBlock c_hidden p a) t).height = t.height := by
  induction l generalizing t with
  | nil => rfl
  | cons p l ih => exact ih (gatedConvBlock c_hidden p t)

/-- Gated blocks keep the width field of their input. -/
theorem foldl_gatedConvBlock_width (c_hidden : ℕ) (l : List GatedBlockParams) (t : Tensor) :
    (l.foldl (fun a p => gatedConvBlock c_hidden p a) t).width = t.width := by
  induction l generalizing t with
  | nil => rfl
  | cons p l ih => exact ih (gatedConvBlock c_hidden p t)

/-! ### Claims about the coupling masks (tools.py) -/

/-- C3: for every height h ≥ 1, width w ≥ 1 and channel count c ≥ 1, the
checkerboard and channel masks built with invert equal the elementwise
complement 1 - m of the masks built without, every entry of either mask is 0
or 1, the inverted and non-inverted masks have identical shapes, and
complementing the inverted mask reproduces the original mask (inverting twice
is the identity). -/
theorem mask_invert_complement (h w c : ℕ) (_hh : 1 ≤ h) (_hw : 1 ≤ w) (_hc : 1 ≤ c) :
    (∀ b ch i j, (create_checkerboard_mask h w true).entry b ch i j
        = 1 - (create_checkerboard_mask h w false).entry b ch i j) ∧
    (∀ b ch i j, (create_checkerboard_mask h w false).entry b ch i j = 0 ∨
        (create_checkerboard_mask h w false).entry b ch i j = 1) ∧
    (∀ b ch i j, (create_checkerboard_mask h w true).entry b ch i j = 0 ∨
        (create_checkerboard_mask h w true).entry b ch i j = 1) ∧
    ((create_checkerboard_mask h w true).shape = (create_checkerboard_mask h w false).shape) ∧
    (∀ b ch i j, 1 - (create_checkerboard_mask h w true).entry b ch i j
        = (create_checkerboard_mask h w false).entry b ch i j) ∧
    (∀ b ch i j, (create_channel_mask c true).entry b ch i j
        = 1 - (create_channel_mask c false).entry b ch i j) ∧
    (∀ b ch i j, (create_channel_mask c false).entry b ch i j = 0 ∨
        (create_channel_mask c false).entry b ch i j = 1) ∧
    (∀ b ch i j, (create_channel_mask c true).entry b ch i j = 0 ∨
        (create_channel_mask c true).entry b ch i j = 1) ∧
    ((create_channel_mask c true).shape = (create_channel_mask c false).shape) ∧
    (∀ b ch i j, 1 - (create_channel_mask c true).entry b ch i j
        = (create_channel_mask c false).entry b ch i j) := by
  refine ⟨?_, ?_, ?_, rfl, ?_, ?_, ?_, ?_, rfl, ?_⟩ <;> intro b ch i j
  · simp [create_checkerboard_mask]
  · rcases Nat.mod_two_eq_zero_or_one (i + j) with hp | hp <;>
      simp [create_checkerboard_mask, hp]
  · rcases Nat.mod_two_eq_zero_or_one (i + j) with hp | hp <;>
      simp [create_checkerboard_mask, hp]
  · simp [create_checkerboard_mask]
  · simp [create_channel_mask]
  · by_cases hch : ch < c / 2 <;> simp [create_channel_mask, hch]
  · by_cases hch : ch < c / 2 <;> simp [create_channel_mask, hch]
  · simp [create_channel_mask]

/-- Witness for C3 at h = 2, w = 3, c = 5. -/
theorem mask_invert_complement_witness :
    (1 ≤ 2 ∧ 1 ≤ 3 ∧ 1 ≤ 5) ∧
    (create_checkerboard_mask 2 3 true).entry 0 0 0 1
      = 1 - (create_checkerboard_mask 2 3 false).entry 0 0 0 1 ∧
    (create_checkerboard_mask 2 3 true).shape = (create_checkerboard_mask 2 3 false).shape ∧
    (create_channel_mask 5 true).entry 0 1 0 0
      = 1 - (create_channel_mask 5 false).entry 0 1 0 0 :=
  ⟨⟨by decide, by decide, by decide⟩,
    (mask_invert_complement 2 3 5 (by decide) (by decide) (by decide)).1 0 0 0 1,
    (mask_invert_complement 2 3 5 (by decide) (by decide) (by decide)).2.2.2.1,
    (mask_invert_complement 2 3 5 (by decide) (by decide) (by decide)).2.2.2.2.2.1 0 1 0 0⟩

/-- C4: for every h ≥ 1 and w ≥ 1, the checkerboard mask is deterministic with
shape [1, 1, h, w]; without invert its entry at spatial position (i, j) is
(i + j) mod 2, and with invert it is the complement 1 - ((i + j) mod 2). -/
theorem create_checkerboard_mask_spec (h w : ℕ) (_hh : 1 ≤ h) (_hw : 1 ≤ w) :
    ((create_checkerboard_mask h w false).shape = [1, 1, h, w]) ∧
    ((create_checkerboard_mask h w true).shape = [1, 1, h, w]) ∧
    (∀ i j, i < h → j < w →
      (create_checkerboard_mask h w false).entry 0 0 i j = (((i + j) % 2 : ℕ) : ℚ)) ∧
    (∀ i j, i < h → j < w →
      (create_checkerboard_mask h w true).entry 0 0 i j = 1 - (((i + j) % 2 : ℕ) : ℚ)) := by
  refine ⟨rfl, rfl, ?_, ?_⟩ <;> intro i j _ _ <;> simp [create_checkerboard_mask]

/-- Witness for C4 at h = 2, w = 3, position (1, 2). -/
theorem create_checkerboard_mask_spec_witness :
    (1 ≤ 2 ∧ 1 ≤ 3) ∧
    (create_checkerboard_mask 2 3 false).shape = [1, 1, 2, 3] ∧
    (create_checkerboard_mask 2 3 false).entry 0 0 1 2 = (((1 + 2) % 2 : ℕ) : ℚ) ∧
    (create_checkerboard_mask 2 3 true).entry 0 0 1 2 = 1 - (((1 + 2) % 2 : ℕ) : ℚ) :=
  ⟨⟨by decide, by decide⟩,
    (create_checkerboard_mask_spec 2 3 (by decide) (by decide)).1,
    (create_checkerboard_mask_spec 2 3 (by decide) (by decide)).2.2.1 1 2 (by decide) (by decide),
    (create_checkerboard_mask_spec 2 3 (by decide) (by decide)).2.2.2 1 2 (by decide) (by decide)⟩

/-- C5: for every channel count c ≥ 1, odd counts included, the channel mask
has shape [1, c, 1, 1], is 1 on the first c / 2 channels (integer floor
division, no error on odd c) and 0 on the remaining c - c / 2 channels, and
with invert it is the complement. -/
theorem create_channel_mask_spec (c : ℕ) (_hc : 1 ≤ c) :
    ((create_channel_mask c false).shape = [1, c, 1, 1]) ∧
    ((create_channel_mask c true).shape = [1, c, 1, 1]) ∧
    (∀ ch, ch < c →
      (create_channel_mask c false).entry 0 ch 0 0 = if ch < c / 2 then 1 else 0) ∧
    (∀ ch, ch < c →
      (create_channel_mask c true).entry 0 ch 0 0 = if ch < c / 2 then 0 else 1) := by
  refine ⟨rfl, rfl, ?_, ?_⟩ <;> intro ch _ <;>
    by_cases hch : ch < c / 2 <;> simp [create_channel_mask, hch]

/-- Witness for C5 at the odd channel count c = 3. -/
theorem create_channel_mask_spec_witness :
    (1 ≤ 3) ∧
    (create_channel_mask 3 false).shape = [1, 3, 1, 1] ∧
    ((create_channel_mask 3 false).entry 0 2 0 0 = if 2 < 3 / 2 then 1 else 0) ∧
    ((create_channel_mask 3 true).entry 0 0 0 0 = if 0 < 3 / 2 then 0 else 1) :=
  ⟨by decide, (create_channel_mask_spec 3 (by decide)).1,
    (create_channel_mask_spec 3 (by decide)).2.2.1 2 (by decide),
    (create_channel_mask_spec 3 (by decide)).2.2.2 0 (by decide)⟩

/-! ### Claims about the gated networks (nn_layers.py) -/

/-- C6: immediately after construction, the final projection layer of both
GatedConvNet and GatedLinearNet has exactly zero weights and bias, whatever
the random initial parameters were, and consequently the forward output of a
freshly constructed net is the all-zero tensor for every input. -/
theorem gated_nets_zero_init_forward_zero (c_in c_hidden : ℕ) (c_out : ℤ)
    (num_layers : ℕ) (r : GatedConvNetRand) (in_features num_layers2 : ℕ)
    (r2 : GatedLinearNetRand) :
    ((GatedConvNet.init c_in c_hidden c_out num_layers r).finalConv.weight
      = fun _ _ _ _ => 0) ∧
    ((GatedConvNet.init c_in c_hidden c_out num_layers r).finalConv.bias = fun _ => 0) ∧
    (∀ x b ch i j,
      (GatedConvNet.forward (GatedConvNet.init c_in c_hidden c_out num_layers r) x).data
        b ch i j = 0) ∧
    ((GatedLinearNet.init in_features num_layers2 r2).finalLin.weight = fun _ _ => 0) ∧
    ((GatedLinearNet.init in_features num_layers2 r2).finalLin.bias = fun _ => 0) ∧
    (∀ x b ch i j,
      (GatedLinearNet.forward (GatedLinearNet.init in_features num_layers2 r2) x).data
        b ch i j = 0) := by
  refine ⟨rfl, rfl, ?_, rfl, rfl, ?_⟩
  · intro x b ch i j
    simp [GatedConvNet.forward, GatedConvNet.init, conv2d_zero_data]
  · intro x b ch i j
    simp [GatedLinearNet.forward, GatedLinearNet.init, linearLayer_zero_data]

/-- C7: with no explicit output channel count (c_out ≤ 0 for GatedConvNet,
always for GatedLinearNet), on an input of shape [b, c, h, w] matching the
constructed dimensions, GatedConvNet produces shape [b, 2 c, h, w] and
GatedLinearNet produces shape [b, 2 c, h, w]. -/
theorem gated_nets_output_channels_doubled (c_in c_hidden : ℕ) (c_out : ℤ)
    (num_layers : ℕ) (r : GatedConvNetRand) (in_features num_layers2 : ℕ)
    (r2 : GatedLinearNetRand) (x : Tensor)
    (hco : c_out ≤ 0) (hch : x.channels = c_in) (hh : 1 ≤ x.height) (hw : 1 ≤ x.width)
    (_hf : in_features = x.channels * x.height * x.width) :
    (GatedConvNet.forward (GatedConvNet.init c_in c_hidden c_out num_layers r) x).shape
      = [x.batch, 2 * x.channels, x.height, x.width] ∧
    (GatedLinearNet.forward (GatedLinearNet.init in_features num_layers2 r2) x).shape
      = [x.batch, 2 * x.channels, x.height, x.width] := by
  constructor
  · simp only [GatedConvNet.forward, GatedConvNet.init, Tensor.shape, conv2d, concatELU,
      foldl_gatedConvBlock_batch, foldl_gatedConvBlock_channels,
      foldl_gatedConvBlock_height, foldl_gatedConvBlock_width]
    have hne : ¬(0 < c_out) := not_lt.mpr hco
    simp only [hne, if_false, hch, List.cons.injEq, and_true]
    refine ⟨trivial, trivial, by omega, by omega⟩
  · rfl

/-- Witness for C7 on a [1, 1, 1, 1] input with c_out = -1. -/
theorem gated_nets_output_channels_doubled_witness :
    ((-1 : ℤ) ≤ 0 ∧ tensor0.channels = 1 ∧ 1 ≤ tensor0.height ∧ 1 ≤ tensor0.width ∧
      1 = tensor0.channels * tensor0.height * tensor0.width) ∧
    (GatedConvNet.forward (GatedConvNet.init 1 2 (-1) 3 gatedConvNetRand0) tensor0).shape
      = [tensor0.batch, 2 * tensor0.channels, tensor0.height, tensor0.width] ∧
    (GatedLinearNet.forward (GatedLinearNet.init 1 3 gatedLinearNetRand0) tensor0).shape
      = [tensor0.batch, 2 * tensor0.channels, tensor0.height, tensor0.width] :=
  ⟨⟨by decide, rfl, by decide, by decide, by decide⟩,
    (gated_nets_output_channels_doubled 1 2 (-1) 3 gatedConvNetRand0 1 3
      gatedLinearNetRand0 tensor0 (by decide) rfl (by decide) (by decide) (by decide)).1,
    (gated_nets_output_channels_doubled 1 2 (-1) 3 gatedConvNetRand0 1 3
      gatedLinearNetRand0 tensor0 (by decide) rfl (by decide) (by decide) (by decide)).2⟩

/-- C8 counterexample: a freshly constructed GatedLinearNet with in_features
= 1 applied to the [1, 1, 1, 1] tensor returns a tensor of shape
[1, 2, 1, 1], not the input shape — `torch.reshape(out, [b, 2 * c, h, w])`
doubles the channel count. -/
theorem gatedLinearNet_shape_counterexample :
    (GatedLinearNet.forward (GatedLinearNet.init 1 3 gatedLinearNetRand0) tensor0).shape
      ≠ tensor0.shape := by
  simp [GatedLinearNet.forward, Tensor.shape, tensor0]

/-- C8 (amended): for every 4D input x of shape [b, c, h, w] whose flattened
feature count matches in_features, GatedLinearNet.forward(x) is reshaped back
to a 4D tensor of shape [b, 2 c, h, w] after the final projection — the
original batch and spatial dimensions with the channel count doubled. -/
theorem gatedLinearNet_forward_shape (in_features num_layers : ℕ)
    (r : GatedLinearNetRand) (x : Tensor)
    (_hf : in_features = x.channels * x.height * x.width) :
    (GatedLinearNet.forward (GatedLinearNet.init in_features num_layers r) x).shape
      = [x.batch, 2 * x.channels, x.height, x.width] := rfl

/-- Witness for the amended C8 on a [1, 1, 1, 1] input. -/
theorem gatedLinearNet_forward_shape_witness :
    (1 = tensor0.channels * tensor0.height * tensor0.width) ∧
    (GatedLinearNet.forward (GatedLinearNet.init 1 3 gatedLinearNetRand0) tensor0).shape
      = [tensor0.batch, 2 * tensor0.channels, tensor0.height, tensor0.width] :=
  ⟨by decide, gatedLinearNet_forward_shape 1 3 gatedLinearNetRand0 tensor0 (by decide)⟩

/-! ### Claims about the recipe builders (network.py) -/

/-- C1: building the simple recipe with size = 28, c = 1 does not succeed:
`get_flow_layers` calls `GatedConvNet(c_in=1, c_hidden=32,
partial_conv=False)` (network.py line 24) but `GatedConvNet.__init__`
(nn_layers.py line 58) accepts no keyword partial_conv, so Python raises
TypeError before any flow layer after the dequantization is built, both in
the direct builder call and through `create_flow`; `log_likelihood` is never
reached. -/
theorem create_simple_flow_rejects_kwarg :
    create_simple_flow ⟨28, 1, "simple"⟩ = .error (.typeError unexpectedKwargMsg) ∧
    create_flow ⟨28, 1, "simple"⟩ = .error (.typeError unexpectedKwargMsg) :=
  ⟨rfl, rfl⟩

/-- C2: for every configuration, the multiscale recipe construction succeeds,
squeeze_twice is true exactly when size % 4 = 0 and size ≥ 20 (so true at
size = 28), and the returned sample_shape_factor is [1, 8, 0.25, 0.25] when
squeeze_twice is true and [1, 2, 0.5, 0.5] when it is false. -/
theorem create_multiscale_flow_squeeze_twice_factor :
    (∀ size : ℕ, multiscale_squeeze_twice size = true ↔ (size % 4 = 0 ∧ 20 ≤ size)) ∧
    multiscale_squeeze_twice 28 = true ∧
    (∀ config : Config, ∃ fm : FlowModel,
      create_multiscale_flow config = .ok (fm,
        if multiscale_squeeze_twice config.size then ([1, 8, 1/4, 1/4] : List ℚ)
        else ([1, 2, 1/2, 1/2] : List ℚ))) := by
  refine ⟨?_, by decide, ?_⟩
  · intro size
    simp [multiscale_squeeze_twice]
  · intro config
    cases hst : multiscale_squeeze_twice config.size
    · exact ⟨_, by simp only [create_multiscale_flow, hst]; rfl⟩
    · exact ⟨_, by simp only [create_multiscale_flow, hst]; rfl⟩

/-- C9: for every configuration whose model_name is none of the six known
recipe names, create_flow raises a NameError naming the unresolved symbol
`create_{model_name}_flow` at the `eval` lookup itself, before any builder
runs, and returns no flow model. -/
theorem create_flow_unknown_model_nameerror (config : Config)
    (hm : config.model_name ∉ knownModelNames) :
    create_flow config =
      .error (.nameError ("name create_" ++ config.model_name ++ "_flow is not defined")) := by
  simp only [knownModelNames, List.mem_cons, List.mem_singleton, not_or,
    List.not_mem_nil] at hm
  obtain ⟨h1, h2, h3, h4, h5, h6, -⟩ := hm
  simp [create_flow, lookupCreateFlowFunc, h1, h2, h3, h4, h5, h6]

/-- Witness for C9 at the unknown model name foo. -/
theorem create_flow_unknown_model_nameerror_witness :
    (("foo" : String) ∉ knownModelNames) ∧
    create_flow ⟨28, 1, "foo"⟩ =
      .error (.nameError ("name create_" ++ "foo" ++ "_flow is not defined")) :=
  ⟨by decide, create_flow_unknown_model_nameerror ⟨28, 1, "foo"⟩ (by decide)⟩

/-- C10: none of the five non-multiscale builders ever returns: at size = 28,
c = 1 (and any other configuration) each raises TypeError through
`get_flow_layers`, which passes the keyword partial_conv to a GatedConvNet
constructor that does not accept it; the assignments
`sample_shape_factor = tensor([1, 1, 1, 1])` are never reached. -/
theorem nonmultiscale_builders_raise :
    create_simple_flow ⟨28, 1, "simple"⟩ = .error (.typeError unexpectedKwargMsg) ∧
    create_vardeq_flow ⟨28, 1, "vardeq"⟩ = .error (.typeError unexpectedKwargMsg) ∧
    create_long_flow ⟨28, 1, "long"⟩ = .error (.typeError unexpectedKwargMsg) ∧
    create_linear_flow ⟨28, 1, "linear"⟩ = .error (.typeError unexpectedKwargMsg) ∧
    create_partial_conv_flow ⟨28, 1, "partial_conv"⟩ = .error (.typeError unexpectedKwargMsg) :=
  ⟨rfl, rfl, rfl, rfl, rfl⟩

end NF
